import Mathlib

/-!
Shallow embedding of `src/main.py` of the `transcribe_telegram` repository.

The program is a Telegram bot: `TelegramBot.handle_audio` sends a processing
notice, fetches the voice (or, failing that, the audio) attachment, downloads
its bytes, converts them to WAV with pydub (`AudioTranscriber.convert_to_wav`),
base64-encodes the WAV bytes and sends them with a fixed prompt to the Gemini
model (`AudioTranscriber.transcribe_audio`), then replies with the
transcription and deletes the processing notice.

External effects (the Telegram `get_file`/download calls, the pydub
transcoder, the remote generative model) are modelled by an `Env` record of
fallible functions; `Except.error e` stands for the call raising an exception
whose `str` is `e`.  Every handler returns, besides its result, the ordered
list of externally visible actions it performed (`Act`), so that temporal
and error-handling claims can be stated about the trace.
-/

/-- One byte, as in a Python `bytes` object; we use `Nat` values. -/
abbrev Byte := Nat

/-- Model of Python `io.BytesIO`: a buffer of bytes plus a cursor position. -/
structure ByteStream where
  data : List Byte
  pos : Nat
deriving DecidableEq, Repr

/-- `stream.read()`: returns everything from the cursor to the end and leaves
the cursor at the end of the buffer. -/
def ByteStream.read (s : ByteStream) : List Byte × ByteStream :=
  (s.data.drop s.pos, ByteStream.mk s.data s.data.length)

/-- `stream.seek(n)`: moves the cursor. -/
def ByteStream.seek (s : ByteStream) (n : Nat) : ByteStream :=
  ByteStream.mk s.data n

/-- A fresh `io.BytesIO(binary)`: cursor at the start. -/
def ByteStream.ofBytes (bs : List Byte) : ByteStream :=
  ByteStream.mk bs 0

/-- A `BytesIO` that was just written to (as after `audio.export(wav_io, ...)`):
cursor at the end of the buffer. -/
def ByteStream.afterWrite (bs : List Byte) : ByteStream :=
  ByteStream.mk bs bs.length

/-- The base64 alphabet, as used by Python `base64.b64encode`. -/
def base64Alphabet : List Char :=
  "ABCDEFGHIJKLMNOPQRSTUVWXYZabcdefghijklmnopqrstuvwxyz0123456789+/".toList

/-- The base64 digit for a 6-bit value. -/
def b64Char (n : Nat) : Char := base64Alphabet.getD n 'A'

/-- Standard base64 encoding of a byte list (RFC 4648, with `=` padding),
modelling `base64.b64encode(...).decode()`. -/
def base64Encode : List Byte → String
  | [] => ""
  | [a] =>
      String.mk [b64Char (a / 4 % 64), b64Char (a % 4 * 16)] ++ "=="
  | [a, b] =>
      String.mk [b64Char (a / 4 % 64), b64Char (a % 4 * 16 + b / 16 % 16),
                 b64Char (b % 16 * 4)] ++ "="
  | a :: b :: c :: rest =>
      String.mk [b64Char (a / 4 % 64), b64Char (a % 4 * 16 + b / 16 % 16),
                 b64Char (b % 16 * 4 + c / 64 % 4), b64Char (c % 64)] ++
        base64Encode rest

/-- The `inline_data` part of the request sent to the model. -/
structure InlineData where
  mime_type : String
  data : String
deriving DecidableEq, Repr

/-- The two-part content list passed to `model.generate_content`: one
`inline_data` part and one `text` part. -/
structure GenRequest where
  inline_data : InlineData
  text : String
deriving DecidableEq, Repr

/-- The instruction text sent with every audio clip (the triple-quoted literal
in `transcribe_audio`, whitespace included). -/
def promptText : String :=
  "Please transcribe this audio.\n                    \n                    If the audio is in English:\n                    - Provide ONLY the transcription, nothing else\n                    \n                    If the audio is NOT in English:\n                    Original: [transcription in original language]\n                    Translation: [English translation]"

/-- The environment: the program's three kinds of external calls.
`getFileFn` models `voice.get_file()` / `audio.get_file()` (from an attachment
identifier to a file handle), `downloadFn` models
`file.download_as_bytearray()`, `convertFn` models the pydub decode + WAV
export, and `generateFn` models `model.generate_content(parts)` followed by
`response.text`.  An `Except.error e` outcome stands for the call raising an
exception with message `e`. -/
structure Env where
  getFileFn : Nat → Except String Nat
  downloadFn : Nat → Except String (List Byte)
  convertFn : List Byte → Except String (List Byte)
  generateFn : GenRequest → Except String String

/-- Externally visible actions of one update, in execution order. -/
inductive Act where
  | replyText (s : String)
  | download (file : Nat)
  | convert (src : List Byte)
  | apiCall (req : GenRequest)
  | deleteProcessing
deriving DecidableEq, Repr

/-- An incoming Telegram message: optional voice note and optional audio
attachment, each reduced to the attachment identifier handed to `get_file`. -/
structure Message where
  voice : Option Nat
  audio : Option Nat
deriving DecidableEq, Repr

/-- The transcriber class has no instance attributes. -/
structure AudioTranscriber

/-- The bot object; `__init__` stores a fresh transcriber in
`self.transcriber` and nothing else. -/
structure TelegramBot where
  transcriber : AudioTranscriber

/-- `AudioTranscriber.download_audio_file`: download the file from Telegram
and wrap the bytes in a fresh `BytesIO`. -/
def AudioTranscriber.download_audio_file (_self : AudioTranscriber) (env : Env)
    (file : Nat) : List Act × Except String ByteStream :=
  ([Act.download file],
   (env.downloadFn file).map (fun binary => ByteStream.ofBytes binary))

/-- `AudioTranscriber.convert_to_wav`: decode the stream with
`AudioSegment.from_file` (which reads from the cursor), export as WAV into a
fresh `BytesIO`, and `seek(0)` before returning. -/
def AudioTranscriber.convert_to_wav (_self : AudioTranscriber) (env : Env)
    (audio_data : ByteStream) : List Act × Except String ByteStream :=
  let src := (audio_data.read).1
  ([Act.convert src],
   (env.convertFn src).map
     (fun wav => (ByteStream.afterWrite wav).seek 0))

/-- The request built in `transcribe_audio` from the bytes it read: base64
data declared as `audio/wav`, plus the fixed prompt. -/
def mkRequest (audio_bytes : List Byte) : GenRequest :=
  GenRequest.mk (InlineData.mk "audio/wav" (base64Encode audio_bytes)) promptText

/-- `AudioTranscriber.transcribe_audio`: read the stream, base64-encode it,
call the model, return `response.text`; the whole body is inside
`try/except`, so an exception from the call turns into the string
`"Error transcribing audio: " ++ e` instead of propagating. -/
def AudioTranscriber.transcribe_audio (_self : AudioTranscriber) (env : Env)
    (audio_file : ByteStream) : List Act × String :=
  let audio_bytes := (audio_file.read).1
  let req := mkRequest audio_bytes
  match env.generateFn req with
  | Except.ok t => ([Act.apiCall req], t)
  | Except.error e => ([Act.apiCall req], "Error transcribing audio: " ++ e)

/-- `AudioTranscriber.process_audio`: convert to WAV, then transcribe; an
exception from the conversion propagates (there is no `try` here). -/
def AudioTranscriber.process_audio (self : AudioTranscriber) (env : Env)
    (audio_file : ByteStream) : List Act × Except String String :=
  let conv := self.convert_to_wav env audio_file
  match conv.2 with
  | Except.error e => (conv.1, Except.error e)
  | Except.ok wav_file =>
    let tr := self.transcribe_audio env wav_file
    (conv.1 ++ tr.1, Except.ok tr.2)

/-- The `"🎵 Processing your audio... Please wait."` notice. -/
def processingText : String := "🎵 Processing your audio... Please wait."

/-- The header prepended to every transcription reply. -/
def transcriptionHeader : String := "📝 Transcription and Translation:\n\n"

/-- The header of the `except`-branch reply of `handle_audio`. -/
def errorHeader : String := "❌ Sorry, there was an error processing your audio: "

/-- Lines 117-121 of `handle_audio`: `if update.message.voice:` take the voice
attachment`s file, `else` the audio attachment`s; when neither exists the
attribute access on `None` raises. -/
def get_the_file (env : Env) (msg : Message) : Except String Nat :=
  match msg.voice with
  | some v => env.getFileFn v
  | none =>
    match msg.audio with
    | some a => env.getFileFn a
    | none => Except.error "AttributeError: NoneType object has no attribute get_file"

/-- `TelegramBot.handle_audio`: the whole body is a `try`; any exception falls
to the `except` branch, which replies with `errorHeader ++ e`.  On the normal
path the transcription reply is sent and then the processing notice deleted.
The method never assigns to `self`, so the bot is returned unchanged. -/
def TelegramBot.handle_audio (bot : TelegramBot) (env : Env) (msg : Message) :
    TelegramBot × List Act :=
  let t0 := [Act.replyText processingText]
  match get_the_file env msg with
  | Except.error e => (bot, t0 ++ [Act.replyText (errorHeader ++ e)])
  | Except.ok file =>
    let dl := bot.transcriber.download_audio_file env file
    match dl.2 with
    | Except.error e => (bot, t0 ++ dl.1 ++ [Act.replyText (errorHeader ++ e)])
    | Except.ok audio_data =>
      let pr := bot.transcriber.process_audio env audio_data
      match pr.2 with
      | Except.error e => (bot, t0 ++ dl.1 ++ pr.1 ++ [Act.replyText (errorHeader ++ e)])
      | Except.ok transcription =>
        (bot, t0 ++ dl.1 ++ pr.1 ++
          [Act.replyText (transcriptionHeader ++ transcription),
           Act.deleteProcessing])

/-- The `/start` welcome text. -/
def welcomeMessage : String :=
  "👋 Welcome to the Audio Transcriber Bot!\n\nSend me any voice message or audio file, and I\x27ll transcribe it for you.\nIf the audio is in Russian or another language, I\x27ll provide an English translation too!"

/-- The `/help` text. -/
def helpMessage : String :=
  "🎯 Here\x27s how to use the bot:\n\n1. Send any voice message or audio file\n2. Wait for processing (this may take a moment)\n3. Receive your transcription and translation\n\nCommands:\n/start - Start the bot\n/help - Show this help message"

/-- `TelegramBot.start`: reply with the welcome text; no state change. -/
def TelegramBot.start (bot : TelegramBot) : TelegramBot × List Act :=
  (bot, [Act.replyText welcomeMessage])

/-- `TelegramBot.help`: reply with the help text; no state change. -/
def TelegramBot.help (bot : TelegramBot) : TelegramBot × List Act :=
  (bot, [Act.replyText helpMessage])

/-- One incoming update, as dispatched by the handlers registered in `run`. -/
inductive UpdateEvent where
  | startCmd
  | helpCmd
  | audioMsg (msg : Message)

/-- Dispatch one update to its handler, threading the bot object. -/
def step (bot : TelegramBot) (env : Env) : UpdateEvent → TelegramBot × List Act
  | UpdateEvent.startCmd => bot.start
  | UpdateEvent.helpCmd => bot.help
  | UpdateEvent.audioMsg msg => bot.handle_audio env msg

/-- Process a list of updates in order, threading the bot object and
concatenating the action traces. -/
def runUpdates (bot : TelegramBot) (env : Env) : List UpdateEvent → TelegramBot × List Act
  | [] => (bot, [])
  | u :: us =>
    let s := step bot env u
    let r := runUpdates s.1 env us
    (r.1, s.2 ++ r.2)

/-! ## Trace-shape lemmas

One lemma per outcome of the three external calls: together they cover every
execution of `handle_audio`. -/

/-- `handle_audio` leaves the bot object unchanged in every case. -/
theorem handle_audio_fst (bot : TelegramBot) (env : Env) (msg : Message) :
    (bot.handle_audio env msg).1 = bot := by
  rcases h0 : get_the_file env msg with e | f <;>
    simp [TelegramBot.handle_audio, h0]
  rcases h1 : (bot.transcriber.download_audio_file env f).2 with e | ad <;>
    simp [h1]
  rcases h2 : (bot.transcriber.process_audio env ad).2 with e | t <;> simp [h2]

/-- Trace when fetching the file raises (or no attachment exists). -/
theorem trace_getfile_error (bot : TelegramBot) (env : Env) (msg : Message)
    (e : String) (h : get_the_file env msg = Except.error e) :
    (bot.handle_audio env msg).2 =
      [Act.replyText processingText, Act.replyText (errorHeader ++ e)] := by
  simp [TelegramBot.handle_audio, h]

/-- Trace when the download raises. -/
theorem trace_download_error (bot : TelegramBot) (env : Env) (msg : Message)
    (f : Nat) (e : String) (h1 : get_the_file env msg = Except.ok f)
    (h2 : env.downloadFn f = Except.error e) :
    (bot.handle_audio env msg).2 =
      [Act.replyText processingText, Act.download f,
       Act.replyText (errorHeader ++ e)] := by
  simp [TelegramBot.handle_audio, AudioTranscriber.download_audio_file, h1, h2,
        Except.map]

/-- Trace when the WAV conversion raises. -/
theorem trace_convert_error (bot : TelegramBot) (env : Env) (msg : Message)
    (f : Nat) (bs : List Byte) (e : String)
    (h1 : get_the_file env msg = Except.ok f)
    (h2 : env.downloadFn f = Except.ok bs)
    (h3 : env.convertFn bs = Except.error e) :
    (bot.handle_audio env msg).2 =
      [Act.replyText processingText, Act.download f, Act.convert bs,
       Act.replyText (errorHeader ++ e)] := by
  simp [TelegramBot.handle_audio, AudioTranscriber.download_audio_file,
        AudioTranscriber.process_audio, AudioTranscriber.convert_to_wav,
        ByteStream.read, ByteStream.ofBytes, h1, h2, h3, Except.map]

/-- Trace when the remote model call raises: `transcribe_audio` swallows the
exception, so the normal path completes with the error text in the reply. -/
theorem trace_generate_error (bot : TelegramBot) (env : Env) (msg : Message)
    (f : Nat) (bs wav : List Byte) (e : String)
    (h1 : get_the_file env msg = Except.ok f)
    (h2 : env.downloadFn f = Except.ok bs)
    (h3 : env.convertFn bs = Except.ok wav)
    (h4 : env.generateFn (mkRequest wav) = Except.error e) :
    (bot.handle_audio env msg).2 =
      [Act.replyText processingText, Act.download f, Act.convert bs,
       Act.apiCall (mkRequest wav),
       Act.replyText (transcriptionHeader ++ ("Error transcribing audio: " ++ e)),
       Act.deleteProcessing] := by
  simp [TelegramBot.handle_audio, AudioTranscriber.download_audio_file,
        AudioTranscriber.process_audio, AudioTranscriber.convert_to_wav,
        AudioTranscriber.transcribe_audio, ByteStream.read, ByteStream.ofBytes,
        ByteStream.afterWrite, ByteStream.seek, h1, h2, h3, h4, Except.map]

/-- Trace of the fully successful run. -/
theorem trace_success (bot : TelegramBot) (env : Env) (msg : Message)
    (f : Nat) (bs wav : List Byte) (t : String)
    (h1 : get_the_file env msg = Except.ok f)
    (h2 : env.downloadFn f = Except.ok bs)
    (h3 : env.convertFn bs = Except.ok wav)
    (h4 : env.generateFn (mkRequest wav) = Except.ok t) :
    (bot.handle_audio env msg).2 =
      [Act.replyText processingText, Act.download f, Act.convert bs,
       Act.apiCall (mkRequest wav),
       Act.replyText (transcriptionHeader ++ t),
       Act.deleteProcessing] := by
  simp [TelegramBot.handle_audio, AudioTranscriber.download_audio_file,
        AudioTranscriber.process_audio, AudioTranscriber.convert_to_wav,
        AudioTranscriber.transcribe_audio, ByteStream.read, ByteStream.ofBytes,
        ByteStream.afterWrite, ByteStream.seek, h1, h2, h3, h4, Except.map]

/-- The processing notice is not a transcription reply: it does not start with
the transcription header. -/
theorem processing_ne_headed (s : String) : processingText ≠ transcriptionHeader ++ s := by
  intro h
  have h2 : processingText.data.head? = (transcriptionHeader ++ s).data.head? := by rw [h]
  rw [String.data_append] at h2
  simp [processingText, transcriptionHeader] at h2

/-- Symmetric form of `processing_ne_headed`. -/
theorem headed_ne_processing (s : String) : transcriptionHeader ++ s ≠ processingText :=
  fun h => processing_ne_headed s h.symm

/-! ## Concrete fixtures used by the witness theorems -/

/-- A bot object as built by `TelegramBot.__init__`. -/
def botW : TelegramBot := TelegramBot.mk AudioTranscriber.mk

/-- An environment where every external call succeeds. -/
def envW : Env := Env.mk (fun r => Except.ok r) (fun _ => Except.ok [1, 2])
  (fun _ => Except.ok [3]) (fun _ => Except.ok "hi")

/-- An environment whose download call raises. -/
def envDlFail : Env := Env.mk (fun r => Except.ok r) (fun _ => Except.error "boom")
  (fun _ => Except.ok [3]) (fun _ => Except.ok "hi")

/-- An environment whose remote model call raises. -/
def envGenFail : Env := Env.mk (fun r => Except.ok r) (fun _ => Except.ok [1, 2])
  (fun _ => Except.ok [3]) (fun _ => Except.error "quota")

/-- A message carrying both a voice note and an audio attachment. -/
def msgW : Message := Message.mk (some 7) (some 9)

/-! ## The claims -/

/-- C1: for every incoming voice or audio message the handler runs the
pipeline strictly in order — in the action trace of `handle_audio`, every
download precedes every transcode, every transcode precedes every remote
model call, and every remote model call precedes every transcription reply
sent to the user. -/
theorem C1_pipeline_order (bot : TelegramBot) (env : Env) (msg : Message) :
    (∀ (i j : Nat) (x : Nat) (y : List Byte),
        ((bot.handle_audio env msg).2)[i]? = some (Act.download x) →
        ((bot.handle_audio env msg).2)[j]? = some (Act.convert y) → i < j)
  ∧ (∀ (i j : Nat) (x : List Byte) (y : GenRequest),
        ((bot.handle_audio env msg).2)[i]? = some (Act.convert x) →
        ((bot.handle_audio env msg).2)[j]? = some (Act.apiCall y) → i < j)
  ∧ (∀ (i j : Nat) (x : GenRequest) (y : String),
        ((bot.handle_audio env msg).2)[i]? = some (Act.apiCall x) →
        ((bot.handle_audio env msg).2)[j]? = some (Act.replyText (transcriptionHeader ++ y)) →
        i < j) := by
  rcases h0 : get_the_file env msg with e | f
  · rw [trace_getfile_error bot env msg e h0]
    refine ⟨?_, ?_, ?_⟩ <;> intro i j x y hi hj <;>
      rcases i with _|_|i <;> rcases j with _|_|j <;>
        simp_all [processing_ne_headed, headed_ne_processing]
  · rcases h1 : env.downloadFn f with e | bs
    · rw [trace_download_error bot env msg f e h0 h1]
      refine ⟨?_, ?_, ?_⟩ <;> intro i j x y hi hj <;>
        rcases i with _|_|_|i <;> rcases j with _|_|_|j <;>
          simp_all [processing_ne_headed, headed_ne_processing]
    · rcases h2 : env.convertFn bs with e | wav
      · rw [trace_convert_error bot env msg f bs e h0 h1 h2]
        refine ⟨?_, ?_, ?_⟩ <;> intro i j x y hi hj <;>
          rcases i with _|_|_|_|i <;> rcases j with _|_|_|_|j <;>
            simp_all [processing_ne_headed, headed_ne_processing]
      · rcases h3 : env.generateFn (mkRequest wav) with e | t
        · rw [trace_generate_error bot env msg f bs wav e h0 h1 h2 h3]
          refine ⟨?_, ?_, ?_⟩ <;> intro i j x y hi hj <;>
            rcases i with _|_|_|_|_|_|i <;> rcases j with _|_|_|_|_|_|j <;>
              simp_all [processing_ne_headed, headed_ne_processing]
        · rw [trace_success bot env msg f bs wav t h0 h1 h2 h3]
          refine ⟨?_, ?_, ?_⟩ <;> intro i j x y hi hj <;>
            rcases i with _|_|_|_|_|_|i <;> rcases j with _|_|_|_|_|_|j <;>
              simp_all [processing_ne_headed, headed_ne_processing]

set_option maxRecDepth 8192 in
/-- Witness for C1 at a concrete all-successful environment. -/
theorem C1_pipeline_order_witness : (1 : Nat) < 2 ∧ (2 : Nat) < 3 ∧ (3 : Nat) < 4 :=
  ⟨(C1_pipeline_order botW envW msgW).1 1 2 7 [1, 2] (by decide) (by decide),
   (C1_pipeline_order botW envW msgW).2.1 2 3 [1, 2] (mkRequest [3]) (by decide) (by decide),
   (C1_pipeline_order botW envW msgW).2.2 3 4 (mkRequest [3]) "hi" (by decide) (by decide)⟩

/-- C2: when the whole pipeline succeeds and the model returns `t`, the text
relayed to the user is exactly `transcriptionHeader ++ t`, i.e. the fixed
prefix `"📝 Transcription and Translation:\n\n"` followed by the model's
text (full trace shown). -/
theorem C2_reply_text (bot : TelegramBot) (env : Env) (msg : Message)
    (f : Nat) (bs wav : List Byte) (t : String)
    (h1 : get_the_file env msg = Except.ok f)
    (h2 : env.downloadFn f = Except.ok bs)
    (h3 : env.convertFn bs = Except.ok wav)
    (h4 : env.generateFn (mkRequest wav) = Except.ok t) :
    (bot.handle_audio env msg).2 =
      [Act.replyText processingText, Act.download f, Act.convert bs,
       Act.apiCall (mkRequest wav),
       Act.replyText (transcriptionHeader ++ t),
       Act.deleteProcessing] :=
  trace_success bot env msg f bs wav t h1 h2 h3 h4

set_option maxRecDepth 8192 in
/-- Witness for C2 at a concrete all-successful environment. -/
theorem C2_reply_text_witness :
    (botW.handle_audio envW msgW).2 =
      [Act.replyText processingText, Act.download 7, Act.convert [1, 2],
       Act.apiCall (mkRequest [3]),
       Act.replyText (transcriptionHeader ++ "hi"),
       Act.deleteProcessing] :=
  C2_reply_text botW envW msgW 7 [1, 2] [3] "hi" rfl rfl rfl rfl

/-- C8: `transcribe_audio` catches every exception of the model call: it
returns `"Error transcribing audio: " ++ e` instead of raising, and
`handle_audio` therefore still takes its success path — the error text is
sent under the normal transcription header and the processing notice is
deleted. -/
theorem C8_transcribe_never_raises (bot : TelegramBot) (env : Env) (msg : Message)
    (f : Nat) (bs wav : List Byte) (e : String)
    (h1 : get_the_file env msg = Except.ok f)
    (h2 : env.downloadFn f = Except.ok bs)
    (h3 : env.convertFn bs = Except.ok wav)
    (h4 : env.generateFn (mkRequest wav) = Except.error e) :
    (bot.transcriber.transcribe_audio env ((ByteStream.afterWrite wav).seek 0)).2 =
      "Error transcribing audio: " ++ e
  ∧ (bot.handle_audio env msg).2 =
      [Act.replyText processingText, Act.download f, Act.convert bs,
       Act.apiCall (mkRequest wav),
       Act.replyText (transcriptionHeader ++ ("Error transcribing audio: " ++ e)),
       Act.deleteProcessing] := by
  constructor
  · simp [AudioTranscriber.transcribe_audio, ByteStream.read, ByteStream.seek,
          ByteStream.afterWrite, h4]
  · exact trace_generate_error bot env msg f bs wav e h1 h2 h3 h4

set_option maxRecDepth 8192 in
/-- Witness for C8 at an environment whose model call raises. -/
theorem C8_transcribe_never_raises_witness :
    (botW.transcriber.transcribe_audio envGenFail ((ByteStream.afterWrite [3]).seek 0)).2 =
      "Error transcribing audio: " ++ "quota"
  ∧ (botW.handle_audio envGenFail msgW).2 =
      [Act.replyText processingText, Act.download 7, Act.convert [1, 2],
       Act.apiCall (mkRequest [3]),
       Act.replyText (transcriptionHeader ++ ("Error transcribing audio: " ++ "quota")),
       Act.deleteProcessing] :=
  C8_transcribe_never_raises botW envGenFail msgW 7 [1, 2] [3] "quota" rfl rfl rfl rfl

/-- Any downloaded file handle in the trace is the one `get_the_file`
returned. -/
theorem download_file_mem (bot : TelegramBot) (env : Env) (msg : Message)
    (x : Nat) (h : Act.download x ∈ (bot.handle_audio env msg).2) :
    get_the_file env msg = Except.ok x := by
  rcases h0 : get_the_file env msg with e | f
  · rw [trace_getfile_error bot env msg e h0] at h
    simp at h
  · rcases h1 : env.downloadFn f with e | bs
    · rw [trace_download_error bot env msg f e h0 h1] at h
      simp at h
      rw [h]
    · rcases h2 : env.convertFn bs with e | wav
      · rw [trace_convert_error bot env msg f bs e h0 h1 h2] at h
        simp at h
        rw [h]
      · rcases h3 : env.generateFn (mkRequest wav) with e | t
        · rw [trace_generate_error bot env msg f bs wav e h0 h1 h2 h3] at h
          simp at h
          rw [h]
        · rw [trace_success bot env msg f bs wav t h0 h1 h2 h3] at h
          simp at h
          rw [h]

/-- C3: every request that reaches the model carries the complete WAV
re-encoding of the downloaded bytes — base64-encoded and declared with mime
type `"audio/wav"` — never the original container bytes. -/
theorem C3_payload_is_wav (bot : TelegramBot) (env : Env) (msg : Message)
    (req : GenRequest) (hmem : Act.apiCall req ∈ (bot.handle_audio env msg).2) :
    ∃ (f : Nat) (bs wav : List Byte),
      get_the_file env msg = Except.ok f ∧
      env.downloadFn f = Except.ok bs ∧
      env.convertFn bs = Except.ok wav ∧
      req = GenRequest.mk (InlineData.mk "audio/wav" (base64Encode wav)) promptText := by
  rcases h0 : get_the_file env msg with e | f
  · rw [trace_getfile_error bot env msg e h0] at hmem
    simp at hmem
  · rcases h1 : env.downloadFn f with e | bs
    · rw [trace_download_error bot env msg f e h0 h1] at hmem
      simp at hmem
    · rcases h2 : env.convertFn bs with e | wav
      · rw [trace_convert_error bot env msg f bs e h0 h1 h2] at hmem
        simp at hmem
      · refine ⟨f, bs, wav, rfl, h1, h2, ?_⟩
        rcases h3 : env.generateFn (mkRequest wav) with e | t
        · rw [trace_generate_error bot env msg f bs wav e h0 h1 h2 h3] at hmem
          simpa [mkRequest] using hmem
        · rw [trace_success bot env msg f bs wav t h0 h1 h2 h3] at hmem
          simpa [mkRequest] using hmem

set_option maxRecDepth 8192 in
/-- Witness for C3 at a concrete all-successful environment. -/
theorem C3_payload_is_wav_witness :
    ∃ (f : Nat) (bs wav : List Byte),
      get_the_file envW msgW = Except.ok f ∧
      envW.downloadFn f = Except.ok bs ∧
      envW.convertFn bs = Except.ok wav ∧
      mkRequest [3] = GenRequest.mk (InlineData.mk "audio/wav" (base64Encode wav)) promptText :=
  C3_payload_is_wav botW envW msgW (mkRequest [3]) (by decide)

/-- C5: whichever of the three fallible steps raises — fetching/downloading
the file, transcoding, or the remote model call — the user still gets a reply
containing the exception text; no audio message is silently dropped. -/
theorem C5_errors_reported (bot : TelegramBot) (env : Env) (msg : Message) :
    (∀ e : String, get_the_file env msg = Except.error e →
        Act.replyText (errorHeader ++ e) ∈ (bot.handle_audio env msg).2)
  ∧ (∀ (f : Nat) (e : String), get_the_file env msg = Except.ok f →
        env.downloadFn f = Except.error e →
        Act.replyText (errorHeader ++ e) ∈ (bot.handle_audio env msg).2)
  ∧ (∀ (f : Nat) (bs : List Byte) (e : String), get_the_file env msg = Except.ok f →
        env.downloadFn f = Except.ok bs → env.convertFn bs = Except.error e →
        Act.replyText (errorHeader ++ e) ∈ (bot.handle_audio env msg).2)
  ∧ (∀ (f : Nat) (bs wav : List Byte) (e : String), get_the_file env msg = Except.ok f →
        env.downloadFn f = Except.ok bs → env.convertFn bs = Except.ok wav →
        env.generateFn (mkRequest wav) = Except.error e →
        Act.replyText (transcriptionHeader ++ ("Error transcribing audio: " ++ e)) ∈
          (bot.handle_audio env msg).2) := by
  refine ⟨?_, ?_, ?_, ?_⟩
  · intro e h
    rw [trace_getfile_error bot env msg e h]
    simp
  · intro f e h1 h2
    rw [trace_download_error bot env msg f e h1 h2]
    simp
  · intro f bs e h1 h2 h3
    rw [trace_convert_error bot env msg f bs e h1 h2 h3]
    simp
  · intro f bs wav e h1 h2 h3 h4
    rw [trace_generate_error bot env msg f bs wav e h1 h2 h3 h4]
    simp

set_option maxRecDepth 8192 in
/-- Witness for C5 at an environment whose download raises. -/
theorem C5_errors_reported_witness :
    Act.replyText (errorHeader ++ "boom") ∈ (botW.handle_audio envDlFail msgW).2 :=
  (C5_errors_reported botW envDlFail msgW).2.1 7 "boom" rfl rfl

/-- C9: the processing notice is deleted exactly when the guarded body runs to
the end — that is, when fetching, downloading and transcoding all succeed
(the model call cannot raise out of `transcribe_audio`); when a step raises,
the notice stays in the chat and the error reply is sent alongside it. -/
theorem C9_delete_iff_no_exception (bot : TelegramBot) (env : Env) (msg : Message) :
    (Act.deleteProcessing ∈ (bot.handle_audio env msg).2 ↔
      ∃ (f : Nat) (bs wav : List Byte),
        get_the_file env msg = Except.ok f ∧
        env.downloadFn f = Except.ok bs ∧
        env.convertFn bs = Except.ok wav)
  ∧ (∀ e : String, get_the_file env msg = Except.error e →
      Act.deleteProcessing ∉ (bot.handle_audio env msg).2 ∧
      Act.replyText (errorHeader ++ e) ∈ (bot.handle_audio env msg).2)
  ∧ (∀ (f : Nat) (e : String), get_the_file env msg = Except.ok f →
      env.downloadFn f = Except.error e →
      Act.deleteProcessing ∉ (bot.handle_audio env msg).2 ∧
      Act.replyText (errorHeader ++ e) ∈ (bot.handle_audio env msg).2)
  ∧ (∀ (f : Nat) (bs : List Byte) (e : String), get_the_file env msg = Except.ok f →
      env.downloadFn f = Except.ok bs → env.convertFn bs = Except.error e →
      Act.deleteProcessing ∉ (bot.handle_audio env msg).2 ∧
      Act.replyText (errorHeader ++ e) ∈ (bot.handle_audio env msg).2) := by
  refine ⟨⟨?_, ?_⟩, ?_, ?_, ?_⟩
  · intro hdel
    rcases h0 : get_the_file env msg with e | f
    · rw [trace_getfile_error bot env msg e h0] at hdel
      simp at hdel
    · rcases h1 : env.downloadFn f with e | bs
      · rw [trace_download_error bot env msg f e h0 h1] at hdel
        simp at hdel
      · rcases h2 : env.convertFn bs with e | wav
        · rw [trace_convert_error bot env msg f bs e h0 h1 h2] at hdel
          simp at hdel
        · exact ⟨f, bs, wav, rfl, h1, h2⟩
  · rintro ⟨f, bs, wav, h0, h1, h2⟩
    rcases h3 : env.generateFn (mkRequest wav) with e | t
    · rw [trace_generate_error bot env msg f bs wav e h0 h1 h2 h3]
      simp
    · rw [trace_success bot env msg f bs wav t h0 h1 h2 h3]
      simp
  · intro e h
    rw [trace_getfile_error bot env msg e h]
    simp
  · intro f e h1 h2
    rw [trace_download_error bot env msg f e h1 h2]
    simp
  · intro f bs e h1 h2 h3
    rw [trace_convert_error bot env msg f bs e h1 h2 h3]
    simp

set_option maxRecDepth 8192 in
/-- Witness for C9: the notice is deleted in the all-successful environment
and kept (with the error reply sent) when the download raises. -/
theorem C9_delete_iff_no_exception_witness :
    Act.deleteProcessing ∈ (botW.handle_audio envW msgW).2
  ∧ Act.deleteProcessing ∉ (botW.handle_audio envDlFail msgW).2
  ∧ Act.replyText (errorHeader ++ "boom") ∈ (botW.handle_audio envDlFail msgW).2 :=
  ⟨(C9_delete_iff_no_exception botW envW msgW).1.mpr ⟨7, [1, 2], [3], rfl, rfl, rfl⟩,
   ((C9_delete_iff_no_exception botW envDlFail msgW).2.2.1 7 "boom" rfl rfl).1,
   ((C9_delete_iff_no_exception botW envDlFail msgW).2.2.1 7 "boom" rfl rfl).2⟩

/-- C10: when the message carries a voice note, the voice attachment is the
one fetched and downloaded, even if an audio attachment is also present; the
audio attachment is used only when there is no voice note. -/
theorem C10_voice_over_audio (bot : TelegramBot) (env : Env) (msg : Message) :
    (∀ v : Nat, msg.voice = some v →
        get_the_file env msg = env.getFileFn v ∧
        ∀ x : Nat, Act.download x ∈ (bot.handle_audio env msg).2 →
          env.getFileFn v = Except.ok x)
  ∧ (msg.voice = none → ∀ a : Nat, msg.audio = some a →
        get_the_file env msg = env.getFileFn a ∧
        ∀ x : Nat, Act.download x ∈ (bot.handle_audio env msg).2 →
          env.getFileFn a = Except.ok x) := by
  constructor
  · intro v hv
    have hg : get_the_file env msg = env.getFileFn v := by
      simp [get_the_file, hv]
    exact ⟨hg, fun x hx => hg ▸ download_file_mem bot env msg x hx⟩
  · intro hv a ha
    have hg : get_the_file env msg = env.getFileFn a := by
      simp [get_the_file, hv, ha]
    exact ⟨hg, fun x hx => hg ▸ download_file_mem bot env msg x hx⟩

set_option maxRecDepth 8192 in
/-- Witness for C10 on a message that has both attachments (the voice one,
id 7, wins) and on a message with only an audio attachment (id 9). -/
theorem C10_voice_over_audio_witness :
    (get_the_file envW msgW = envW.getFileFn 7 ∧ envW.getFileFn 7 = Except.ok 7)
  ∧ get_the_file envW (Message.mk none (some 9)) = envW.getFileFn 9 :=
  ⟨⟨((C10_voice_over_audio botW envW msgW).1 7 rfl).1,
    ((C10_voice_over_audio botW envW msgW).1 7 rfl).2 7 (by decide)⟩,
   ((C10_voice_over_audio botW envW (Message.mk none (some 9))).2 rfl 9 rfl).1⟩

/-- Characterization of the requests that reach the model: exactly the
`mkRequest` of the successfully produced WAV bytes. -/
theorem apiCall_mem_char (bot : TelegramBot) (env : Env) (msg : Message)
    (req : GenRequest) :
    Act.apiCall req ∈ (bot.handle_audio env msg).2 ↔
    ∃ (f : Nat) (bs wav : List Byte),
      get_the_file env msg = Except.ok f ∧
      env.downloadFn f = Except.ok bs ∧
      env.convertFn bs = Except.ok wav ∧
      req = mkRequest wav := by
  constructor
  · intro hmem
    rcases h0 : get_the_file env msg with e | f
    · rw [trace_getfile_error bot env msg e h0] at hmem
      simp at hmem
    · rcases h1 : env.downloadFn f with e | bs
      · rw [trace_download_error bot env msg f e h0 h1] at hmem
        simp at hmem
      · rcases h2 : env.convertFn bs with e | wav
        · rw [trace_convert_error bot env msg f bs e h0 h1 h2] at hmem
          simp at hmem
        · refine ⟨f, bs, wav, rfl, h1, h2, ?_⟩
          rcases h3 : env.generateFn (mkRequest wav) with e | t
          · rw [trace_generate_error bot env msg f bs wav e h0 h1 h2 h3] at hmem
            simpa using hmem
          · rw [trace_success bot env msg f bs wav t h0 h1 h2 h3] at hmem
            simpa using hmem
  · rintro ⟨f, bs, wav, h0, h1, h2, rfl⟩
    rcases h3 : env.generateFn (mkRequest wav) with e | t
    · rw [trace_generate_error bot env msg f bs wav e h0 h1 h2 h3]
      simp
    · rw [trace_success bot env msg f bs wav t h0 h1 h2 h3]
      simp

/-- Each handler hands the bot object back unchanged. -/
theorem step_fst (bot : TelegramBot) (env : Env) (u : UpdateEvent) :
    (step bot env u).1 = bot := by
  cases u with
  | startCmd => rfl
  | helpCmd => rfl
  | audioMsg msg => exact handle_audio_fst bot env msg

/-- A whole run of updates hands the bot object back unchanged. -/
theorem runUpdates_fst (bot : TelegramBot) (env : Env) (us : List UpdateEvent) :
    (runUpdates bot env us).1 = bot := by
  induction us generalizing bot with
  | nil => rfl
  | cons u us ih =>
    calc (runUpdates bot env (u :: us)).1
        = (runUpdates (step bot env u).1 env us).1 := rfl
      _ = (step bot env u).1 := ih (step bot env u).1
      _ = bot := step_fst bot env u

/-- C6: every operation — `/start`, `/help`, or an audio message — leaves
the program state unchanged: the bot object (hence its `transcriber` field;
`AudioTranscriber` has no fields at all) is identical after any single
update and after any sequence of updates, so nothing is persisted or cached
between updates. -/
theorem C6_no_state_mutation (bot : TelegramBot) (env : Env) (u : UpdateEvent)
    (us : List UpdateEvent) :
    (step bot env u).1 = bot ∧ (runUpdates bot env us).1 = bot :=
  ⟨step_fst bot env u, runUpdates_fst bot env us⟩

/-- C7: processing depends only on the message's own bytes — whenever the
same audio bytes arrive, whatever updates were handled before each run, the
set of requests sent to the remote model is the same: no cached result is
reused and no earlier update influences a later one. -/
theorem C7_history_independence (bot : TelegramBot) (env : Env)
    (us1 us2 : List UpdateEvent) (msg1 msg2 : Message) (f1 f2 : Nat)
    (bs : List Byte)
    (h1 : get_the_file env msg1 = Except.ok f1)
    (h2 : get_the_file env msg2 = Except.ok f2)
    (h3 : env.downloadFn f1 = Except.ok bs)
    (h4 : env.downloadFn f2 = Except.ok bs) :
    ∀ req : GenRequest,
      (Act.apiCall req ∈
          (step (runUpdates bot env us1).1 env (UpdateEvent.audioMsg msg1)).2 ↔
       Act.apiCall req ∈
          (step (runUpdates bot env us2).1 env (UpdateEvent.audioMsg msg2)).2) := by
  intro req
  rw [runUpdates_fst bot env us1, runUpdates_fst bot env us2]
  show Act.apiCall req ∈ (bot.handle_audio env msg1).2 ↔
       Act.apiCall req ∈ (bot.handle_audio env msg2).2
  rw [apiCall_mem_char, apiCall_mem_char]
  constructor
  · rintro ⟨f, bs0, wav, hg, hd, hc, hr⟩
    have hf : f1 = f := Except.ok.inj (h1.symm.trans hg)
    rw [← hf, h3] at hd
    have hb : bs = bs0 := Except.ok.inj hd
    rw [← hb] at hc
    exact ⟨f2, bs, wav, h2, h4, hc, hr⟩
  · rintro ⟨f, bs0, wav, hg, hd, hc, hr⟩
    have hf : f2 = f := Except.ok.inj (h2.symm.trans hg)
    rw [← hf, h4] at hd
    have hb : bs = bs0 := Except.ok.inj hd
    rw [← hb] at hc
    exact ⟨f1, bs, wav, h1, h3, hc, hr⟩

set_option maxRecDepth 8192 in
/-- Witness for C7: same message after a `/start` update versus after no
update at all. -/
theorem C7_history_independence_witness :
    Act.apiCall (mkRequest [3]) ∈
        (step (runUpdates botW envW [UpdateEvent.startCmd]).1 envW
          (UpdateEvent.audioMsg msgW)).2 ↔
    Act.apiCall (mkRequest [3]) ∈
        (step (runUpdates botW envW []).1 envW (UpdateEvent.audioMsg msgW)).2 :=
  C7_history_independence botW envW [UpdateEvent.startCmd] [] msgW msgW 7 7 [1, 2]
    rfl rfl rfl rfl (mkRequest [3])

/-- Modelled from the spec: the remote generative model is external to the
repository, so its linguistic behavior is an assumption.  `ModelBehavior`
abstracts what the model hears in a WAV clip: whether it is English, its
transcription, and an English translation. -/
structure ModelBehavior where
  isEnglish : List Byte → Bool
  transcript : List Byte → String
  translation : List Byte → String

/-- Modelled from the spec: the model answers a transcription request in the
format the fixed prompt dictates — the bare transcription when the audio is
English, and an `Original:` line plus a `Translation:` line otherwise. -/
def followsPrompt (env : Env) (M : ModelBehavior) : Prop :=
  ∀ wav : List Byte,
    env.generateFn (mkRequest wav) =
      Except.ok (if M.isEnglish wav then M.transcript wav
        else "Original: " ++ M.transcript wav ++ "\nTranslation: " ++ M.translation wav)

/-- C4: assuming the remote model honors the prompt it is sent, the reply
relayed for non-English audio contains both the original-language
transcription and the English translation, and the reply for English audio
carries the transcription alone. -/
theorem C4_translation_when_not_english (bot : TelegramBot) (env : Env)
    (msg : Message) (M : ModelBehavior) (f : Nat) (bs wav : List Byte)
    (hM : followsPrompt env M)
    (h1 : get_the_file env msg = Except.ok f)
    (h2 : env.downloadFn f = Except.ok bs)
    (h3 : env.convertFn bs = Except.ok wav) :
    (M.isEnglish wav = false →
      Act.replyText (transcriptionHeader ++
          ("Original: " ++ M.transcript wav ++ "\nTranslation: " ++ M.translation wav)) ∈
        (bot.handle_audio env msg).2)
  ∧ (M.isEnglish wav = true →
      Act.replyText (transcriptionHeader ++ M.transcript wav) ∈
        (bot.handle_audio env msg).2) := by
  constructor
  · intro hE
    have h4 := hM wav
    rw [hE] at h4
    simp only [Bool.false_eq_true, if_false] at h4
    rw [trace_success bot env msg f bs wav _ h1 h2 h3 h4]
    simp
  · intro hE
    have h4 := hM wav
    rw [hE] at h4
    simp only [if_true] at h4
    rw [trace_success bot env msg f bs wav _ h1 h2 h3 h4]
    simp

/-- A model behavior that hears every clip as non-English Spanish. -/
def modelW : ModelBehavior :=
  ModelBehavior.mk (fun _ => false) (fun _ => "hola") (fun _ => "hello")

/-- An environment whose model reply follows the prompt format for
`modelW`. -/
def envC4 : Env := Env.mk (fun r => Except.ok r) (fun _ => Except.ok [1, 2])
  (fun _ => Except.ok [3])
  (fun _ => Except.ok ("Original: " ++ "hola" ++ "\nTranslation: " ++ "hello"))

set_option maxRecDepth 8192 in
/-- Witness for C4: a concrete complying environment for non-English audio. -/
theorem C4_translation_when_not_english_witness :
    Act.replyText (transcriptionHeader ++
        ("Original: " ++ "hola" ++ "\nTranslation: " ++ "hello")) ∈
      (botW.handle_audio envC4 msgW).2 :=
  (C4_translation_when_not_english botW envC4 msgW modelW 7 [1, 2] [3]
    (fun _ => rfl) rfl rfl rfl).1 rfl
